import Mathlib

/-!
Verification of the civic-scraper extraction and normalization engine.

The definitions below shallowly embed the Python sources under
civic_scraper/ (granicus, civic_plus, civic_clerk, legistar platforms, the
base Site class and the Runner facade).  Each definition carries a comment
naming the file and function it translates.  Machine behaviour of the
Python standard library (strptime, parse_qs, str.title, ...) is embedded
directly where the scrapers rely on it.
-/

namespace CivicScraper

/-- Calendar date, as produced by the date normalizer. -/
structure Date where
  year : Nat
  month : Nat
  day : Nat
deriving DecidableEq, Repr

/-- Time of day (seconds resolution), as produced by the time normalizer. -/
structure Time where
  hour : Nat
  minute : Nat
  second : Nat
deriving DecidableEq, Repr

/-- Naive datetime (no timezone), mirroring Python datetime values used by
the scrapers. -/
structure DateTime where
  date : Date
  time : Time
deriving DecidableEq, Repr

/-- Midnight, Python datetime.min.time() and time(0, 0). -/
def midnight : Time := ⟨0, 0, 0⟩

/-- Value of an ASCII digit character. -/
def digitVal (c : Char) : Nat := c.toNat - 48

/-- Whether the character list starting here begins with the given list. -/
def listStartsWith : List Char → List Char → Bool
  | [], _ => true
  | _ :: _, [] => false
  | a :: as, b :: bs => a == b && listStartsWith as bs

/-- Whether sub occurs as a contiguous run inside the list (Python
`sub in s`). -/
def listHasRun (sub : List Char) : List Char → Bool
  | [] => listStartsWith sub []
  | c :: cs => listStartsWith sub (c :: cs) || listHasRun sub cs

/-- Python substring containment `sub in s`. -/
def strContains (s sub : String) : Bool := listHasRun sub.data s.data

/-- Python str.lower() restricted to ASCII, which covers every string the
scrapers lowercase. -/
def pyLower (s : String) : String := ⟨s.data.map Char.toLower⟩

/-- Whitespace as Python sees it in str operations (the non-breaking space
is whitespace for str.strip and for the regex escapes). -/
def pyWsChar (c : Char) : Bool := c.isWhitespace || c = '\xa0'

/-- Python str.strip(). -/
def pyStrip (s : String) : String :=
  ⟨((s.data.dropWhile pyWsChar).reverse.dropWhile pyWsChar).reverse⟩

/-- Remove every occurrence of a character (str.replace(c, "") for the
single-character replacements in the sources). -/
def removeChar (c : Char) (s : String) : String := ⟨s.data.filter (· ≠ c)⟩

/-- Replace every occurrence of a character by another
(str.replace(c, r)). -/
def replaceCharWith (c r : Char) (s : String) : String :=
  ⟨s.data.map fun x => if x = c then r else x⟩

/-- Split segments on a separator, scanning left to right without overlap
(str.split(sep) for a non-empty separator).  skip counts separator
characters still to discard; acc holds the current segment reversed. -/
def splitSeg (sep : List Char) : List Char → Nat → List Char → List (List Char)
  | [], _, acc => [acc.reverse]
  | _ :: cs, Nat.succ k, acc => splitSeg sep cs k acc
  | c :: cs, 0, acc =>
    if listStartsWith sep (c :: cs) && !sep.isEmpty then
      acc.reverse :: splitSeg sep cs (sep.length - 1) []
    else splitSeg sep cs 0 (c :: acc)

/-- Python str.split(sep) for a non-empty separator. -/
def pySplit (s sep : String) : List String :=
  (splitSeg sep.data s.data 0 []).map String.mk

/-- Join strings with a separator (str.join). -/
def joinWith (sep : String) : List String → String
  | [] => ""
  | [x] => x
  | x :: y :: xs => x ++ sep ++ joinWith sep (y :: xs)

/-- Auxiliary for pyTitle: tracks whether the previous character was
alphabetic. -/
def pyTitleAux : Bool → List Char → List Char
  | _, [] => []
  | prevAlpha, c :: cs =>
    if c.isAlpha then
      (if prevAlpha then c.toLower else c.toUpper) :: pyTitleAux true cs
    else c :: pyTitleAux false cs

/-- Python str.title(): uppercase each letter that follows a non-letter,
lowercase the rest. -/
def pyTitle (s : String) : String := ⟨pyTitleAux false s.data⟩

/-- Python str.lstrip(c) for a single character. -/
def pyLstripChar (c : Char) (s : String) : String :=
  ⟨s.data.dropWhile (· == c)⟩

/-- Two-digit zero padded decimal, Python format {n:02d}. -/
def pad2 (n : Nat) : String := if n < 10 then "0" ++ toString n else toString n

/-- Four-digit zero padded decimal, Python strftime %Y for the years the
scrapers handle. -/
def pad4 (n : Nat) : String :=
  if n < 10 then "000" ++ toString n
  else if n < 100 then "00" ++ toString n
  else if n < 1000 then "0" ++ toString n
  else toString n

/-- Python strftime "%H:%M:%S". -/
def fmtHMS (t : Time) : String :=
  pad2 t.hour ++ ":" ++ pad2 t.minute ++ ":" ++ pad2 t.second

/-- Python strftime "%Y-%m-%d". -/
def fmtYMD (d : Date) : String :=
  pad4 d.year ++ "-" ++ pad2 d.month ++ "-" ++ pad2 d.day

/-- Days in a month, as validated by the Python datetime constructor. -/
def monthDays (y m : Nat) : Nat :=
  if m = 2 then
    if y % 4 = 0 && (y % 100 ≠ 0 || y % 400 = 0) then 29 else 28
  else if m = 4 || m = 6 || m = 9 || m = 11 then 30
  else 31

/-! ### strptime

CPython's `_strptime` compiles a format string into a regular expression
(one alternation per directive, tried left to right, full match required)
and then builds a datetime, raising ValueError when the regex fails or the
resulting date is invalid.  The scrapers use the directives
%b %B %d %Y %H %I %M %S %p; the embedding below reproduces the exact
per-directive alternations of `_strptime.TimeRE` for those directives. -/

/-- One token of a compiled strptime format: a literal character, a
whitespace run, or a directive. -/
inductive FTok where
  | lit (c : Char)
  | ws
  | dir (d : Char)
deriving DecidableEq, Repr

/-- Compile a format string into tokens ('%' introduces a directive, a
space stands for a whitespace run). -/
def parseFmt : List Char → List FTok
  | [] => []
  | '%' :: c :: rest => .dir c :: parseFmt rest
  | '%' :: [] => []
  | c :: rest => (if c = ' ' then .ws else .lit c) :: parseFmt rest

/-- Captured directive values while matching a format. -/
structure Caps where
  year : Option Nat := none
  month : Option Nat := none
  day : Option Nat := none
  hour24 : Option Nat := none
  hour12 : Option Nat := none
  minute : Option Nat := none
  second : Option Nat := none
  pm : Option Bool := none
deriving Repr

/-- Candidates for %d, regex 3[01]|[12]d|0[1-9]|[1-9], in alternation
order; each candidate is (value, remaining input). -/
def dayCands : List Char → List (Nat × List Char)
  | c1 :: c2 :: rest =>
    (if c1 = '3' && (c2 = '0' || c2 = '1') then [(30 + digitVal c2, rest)] else []) ++
    (if (c1 = '1' || c1 = '2') && c2.isDigit then [(digitVal c1 * 10 + digitVal c2, rest)] else []) ++
    (if c1 = '0' && ('1' ≤ c2 && c2 ≤ '9') then [(digitVal c2, rest)] else []) ++
    (if '1' ≤ c1 && c1 ≤ '9' then [(digitVal c1, c2 :: rest)] else [])
  | [c1] => if '1' ≤ c1 && c1 ≤ '9' then [(digitVal c1, [])] else []
  | [] => []

/-- Candidates for %Y, regex dddd (exactly four digits). -/
def yearCands : List Char → List (Nat × List Char)
  | c1 :: c2 :: c3 :: c4 :: rest =>
    if c1.isDigit && c2.isDigit && c3.isDigit && c4.isDigit then
      [(digitVal c1 * 1000 + digitVal c2 * 100 + digitVal c3 * 10 + digitVal c4, rest)]
    else []
  | _ => []

/-- Candidates for %H, regex 2[0-3]|[0-1]d|d. -/
def hour24Cands : List Char → List (Nat × List Char)
  | c1 :: c2 :: rest =>
    (if c1 = '2' && ('0' ≤ c2 && c2 ≤ '3') then [(20 + digitVal c2, rest)] else []) ++
    (if (c1 = '0' || c1 = '1') && c2.isDigit then [(digitVal c1 * 10 + digitVal c2, rest)] else []) ++
    (if c1.isDigit then [(digitVal c1, c2 :: rest)] else [])
  | [c1] => if c1.isDigit then [(digitVal c1, [])] else []
  | [] => []

/-- Candidates for %I, regex 1[0-2]|0[1-9]|[1-9]. -/
def hour12Cands : List Char → List (Nat × List Char)
  | c1 :: c2 :: rest =>
    (if c1 = '1' && ('0' ≤ c2 && c2 ≤ '2') then [(10 + digitVal c2, rest)] else []) ++
    (if c1 = '0' && ('1' ≤ c2 && c2 ≤ '9') then [(digitVal c2, rest)] else []) ++
    (if '1' ≤ c1 && c1 ≤ '9' then [(digitVal c1, c2 :: rest)] else [])
  | [c1] => if '1' ≤ c1 && c1 ≤ '9' then [(digitVal c1, [])] else []
  | [] => []

/-- Candidates for %M, regex [0-5]d|d. -/
def minuteCands : List Char → List (Nat × List Char)
  | c1 :: c2 :: rest =>
    (if ('0' ≤ c1 && c1 ≤ '5') && c2.isDigit then [(digitVal c1 * 10 + digitVal c2, rest)] else []) ++
    (if c1.isDigit then [(digitVal c1, c2 :: rest)] else [])
  | [c1] => if c1.isDigit then [(digitVal c1, [])] else []
  | [] => []

/-- Candidates for %S, regex 6[0-1]|[0-5]d|d. -/
def secondCands : List Char → List (Nat × List Char)
  | c1 :: c2 :: rest =>
    (if c1 = '6' && (c2 = '0' || c2 = '1') then [(60 + digitVal c2, rest)] else []) ++
    (if ('0' ≤ c1 && c1 ≤ '5') && c2.isDigit then [(digitVal c1 * 10 + digitVal c2, rest)] else []) ++
    (if c1.isDigit then [(digitVal c1, c2 :: rest)] else [])
  | [c1] => if c1.isDigit then [(digitVal c1, [])] else []
  | [] => []

/-- Case-insensitive match of one name from the list (value paired with
each name), as _strptime does for month names and AM/PM. -/
def nameCands (names : List (String × Nat)) (cs : List Char) : List (Nat × List Char) :=
  names.filterMap fun p =>
    let nd := p.1.data
    if (cs.take nd.length).map Char.toLower = nd then some (p.2, cs.drop nd.length)
    else none

/-- Abbreviated month names for %b (lowercase; matching is
case-insensitive). -/
def monthAbbrs : List (String × Nat) :=
  [("jan", 1), ("feb", 2), ("mar", 3), ("apr", 4), ("may", 5), ("jun", 6),
   ("jul", 7), ("aug", 8), ("sep", 9), ("oct", 10), ("nov", 11), ("dec", 12)]

/-- Full month names for %B. -/
def monthFulls : List (String × Nat) :=
  [("january", 1), ("february", 2), ("march", 3), ("april", 4), ("may", 5),
   ("june", 6), ("july", 7), ("august", 8), ("september", 9), ("october", 10),
   ("november", 11), ("december", 12)]

/-- Candidate parses for one directive at the current position, in the
alternation order of the compiled regex. -/
def dirCands (d : Char) (cs : List Char) : List (Nat × List Char) :=
  match d with
  | 'd' => dayCands cs
  | 'Y' => yearCands cs
  | 'H' => hour24Cands cs
  | 'I' => hour12Cands cs
  | 'M' => minuteCands cs
  | 'S' => secondCands cs
  | 'b' => nameCands monthAbbrs cs
  | 'B' => nameCands monthFulls cs
  | 'p' => nameCands [("am", 0), ("pm", 1)] cs
  | _ => []

/-- Record a directive's captured value. -/
def applyDir (d : Char) (v : Nat) (caps : Caps) : Caps :=
  match d with
  | 'd' => { caps with day := some v }
  | 'Y' => { caps with year := some v }
  | 'H' => { caps with hour24 := some v }
  | 'I' => { caps with hour12 := some v }
  | 'M' => { caps with minute := some v }
  | 'S' => { caps with second := some v }
  | 'b' => { caps with month := some v }
  | 'B' => { caps with month := some v }
  | 'p' => { caps with pm := some (v = 1) }
  | _ => caps

/-- Number of leading whitespace characters. -/
def leadingWs : List Char → Nat
  | [] => 0
  | c :: cs => if pyWsChar c then leadingWs cs + 1 else 0

/-- Remainders after consuming one or more whitespace characters, longest
consumption first (greedy regex whitespace run). -/
def wsCands (cs : List Char) : List (List Char) :=
  (List.range (leadingWs cs)).map fun i => cs.drop (leadingWs cs - i)

/-- Match compiled tokens against the whole input (Python strptime requires
the regex match to span the full string), with regex-style backtracking
over the alternation candidates. -/
def matchToks : List FTok → List Char → Caps → Option Caps
  | [], [], caps => some caps
  | [], _ :: _, _ => none
  | .lit _ :: _, [], _ => none
  | .lit c :: toks, c' :: cs, caps =>
    if c = c' then matchToks toks cs caps else none
  | .ws :: toks, cs, caps =>
    (wsCands cs).findSome? fun rest => matchToks toks rest caps
  | .dir d :: toks, cs, caps =>
    (dirCands d cs).findSome? fun vc => matchToks toks vc.2 (applyDir d vc.1 caps)

/-- Build the datetime from captures, with the validation the Python
datetime constructor performs (strptime defaults: year 1900, month 1,
day 1; %I is combined with %p exactly as _strptime does). -/
def buildDT (caps : Caps) : Option DateTime :=
  let y := caps.year.getD 1900
  let mo := caps.month.getD 1
  let d := caps.day.getD 1
  let mi := caps.minute.getD 0
  let s := caps.second.getD 0
  let h : Nat :=
    match caps.hour24 with
    | some h24 => h24
    | none =>
      match caps.hour12 with
      | none => 0
      | some h12 =>
        match caps.pm with
        | some true => if h12 = 12 then 12 else h12 + 12
        | _ => if h12 = 12 then 0 else h12
  if 1 ≤ y && d ≤ monthDays y mo && s ≤ 59 then
    some ⟨⟨y, mo, d⟩, ⟨h, mi, s⟩⟩
  else none

/-- Python datetime.strptime(s, fmt): none models ValueError. -/
def strptime (fmt s : String) : Option DateTime :=
  (matchToks (parseFmt fmt.data) s.data {}).bind buildDT

/-- utils.parse_datetime_formats (civic_scraper/utils.py): try each format
in order, first success wins; none models the final ValueError.  Timezone
localization never changes the naive date/time fields and is dropped (an
unknown zone or a localization failure keeps the naive value). -/
def parseDatetimeFormats (s : String) (fmts : List String) : Option DateTime :=
  fmts.findSome? fun f => strptime f s

/-- utils.standardize_committee_name: placeholder for a falsy name, else
strip and title-case. -/
def standardizeCommitteeName (name : String) : String :=
  if name = "" then "Unknown Committee" else pyTitle (pyStrip name)

/-! ### URL helpers (urllib.parse) -/

/-- Query component of a URL as urlparse yields it: everything after the
first question mark, cut at the first hash. -/
def urlQuery (url : String) : String :=
  match pySplit url "?" with
  | [] => ""
  | [_] => ""
  | _ :: rest => (pySplit (joinWith "?" rest) "#").headD ""

/-- urllib.parse.parse_qs with its defaults: pairs split on the ampersand,
key and value split on the first equals sign, pairs without a value or
with an empty value dropped. -/
def parseQs (q : String) : List (String × String) :=
  ((pySplit q "&").map fun pair =>
    match pySplit pair "=" with
    | k :: v :: more =>
      let vv := joinWith "=" (v :: more)
      if vv = "" then [] else [(k, vv)]
    | _ => []).flatten

/-- First value for a key in a parsed query (query_params[key][0]). -/
def qsFirst (q : String) (key : String) : Option String :=
  ((parseQs q).find? fun p => p.1 = key).map Prod.snd

/-- granicus/site.py Site._extract_meeting_id: check the common Granicus id
query parameters in fixed order, returning the first value present. -/
def extractMeetingId (url : String) : Option String :=
  ["clip_id", "meta_id", "event_id", "id", "meeting_id"].findSome? fun key =>
    qsFirst (urlQuery url) key

/-- urllib.parse.urljoin restricted to the shapes the scrapers produce: an
absolute reference wins, a root-relative path is resolved against the
scheme and host of the base, any other reference replaces the last path
segment of the base. -/
def urljoinLite (base rel : String) : String :=
  if rel = "" then base
  else if strContains rel "://" then rel
  else
    let schemeHost :=
      match pySplit base "/" with
      | scheme :: "" :: host :: _ => scheme ++ "//" ++ host
      | _ => base
    if listStartsWith ['/'] rel.data then schemeHost ++ rel
    else
      let segs := pySplit base "/"
      joinWith "/" segs.dropLast ++ "/" ++ rel

/-! ### Asset record (base/asset.py is consumed as the common output
shape; fields follow the asset_args dictionaries built by the scrapers) -/

/-- Standardized output record built by the platform scrapers. -/
structure Asset where
  url : String
  asset_name : String
  committee_name : String
  place : Option String
  state_or_province : Option String
  asset_type : String
  meeting_date : Option Date
  meeting_time : Option Time
  meeting_id : Option String
  scraped_by : String
  content_type : String
  content_length : Option Nat
deriving DecidableEq, Repr

/-! ### Granicus RSS path (granicus/site.py) -/

/-- The fields of one feedparser RSS entry that
Site._create_asset_from_rss_entry reads.  published is the
published_parsed struct_time (first six components), present or not;
its components are not assumed valid. -/
structure PubStruct where
  year : Nat
  month : Nat
  day : Nat
  hour : Nat
  minute : Nat
  second : Nat
deriving DecidableEq, Repr

/-- Python datetime(*struct[:6]): none models the ValueError raised on out
of range components. -/
def datetimeOfStruct (st : PubStruct) : Option DateTime :=
  if 1 ≤ st.year && 1 ≤ st.month && st.month ≤ 12 && 1 ≤ st.day &&
     st.day ≤ monthDays st.year st.month && st.hour ≤ 23 &&
     st.minute ≤ 59 && st.second ≤ 59 then
    some ⟨⟨st.year, st.month, st.day⟩, ⟨st.hour, st.minute, st.second⟩⟩
  else none

/-- One RSS feed entry as consumed by the Granicus scraper. -/
structure RSSEntry where
  title : String
  link : String
  published : Option PubStruct
  entryType : Option String
  summary : Option String
  length : Option Nat
deriving DecidableEq, Repr

/-- The per-site configuration the Granicus Site object carries. -/
structure GranicusConf where
  url : String
  place : Option String
  state_or_province : Option String
deriving DecidableEq, Repr

/-- base/constants.py SCRAPED_BY. -/
def scrapedBy : String := "civic-scraper"

/-- granicus/site.py Site._create_asset_from_rss_entry, lines 291-371.
The wall clock (datetime.now()) is passed in explicitly as now so that the
embedding stays a function; the Python code reads it in the final fallback
when the published_parsed struct cannot be converted. -/
def createAssetFromRssEntry (cfg : GranicusConf) (now : DateTime)
    (e : RSSEntry) : Asset :=
  let asset_name := pyStrip e.title
  let meeting_url := e.link
  let title_parts := (pySplit asset_name " - ").map pyStrip
  let split3 := decide (3 ≤ title_parts.length)
  let committee_name := if split3 then title_parts.headD asset_name else asset_name
  let asset_type := if split3 then (title_parts.drop 1).headD "Unknown" else "Unknown"
  -- the try block around title parsing: a ValueError anywhere inside
  -- (including converting published_parsed for the time replacement)
  -- leaves meeting_datetime as None
  let fromTitle : Option DateTime :=
    if split3 then
      match parseDatetimeFormats (title_parts.getLastD "") ["%b %d, %Y", "%B %d, %Y"] with
      | none => none
      | some dt =>
        if dt.time = midnight && e.published.isSome then
          match e.published.bind datetimeOfStruct with
          | some pub => some ⟨dt.date, pub.time⟩
          | none => none
        else some dt
    else none
  -- fallback to the published date; a second conversion failure falls all
  -- the way back to datetime.now()
  let meeting_datetime : Option DateTime :=
    match fromTitle, e.published with
    | none, some st =>
      match datetimeOfStruct st with
      | some pub => some pub
      | none => some now
    | x, _ => x
  let meeting_id := extractMeetingId meeting_url
  let ct0 := e.entryType.getD "application/octet-stream"
  let content_type :=
    if strContains ct0 "video" || strContains ct0 "wmv" then "video/x-ms-wmv"
    else if strContains (pyLower (e.summary.getD "")) "pdf" ||
            strContains (pyLower meeting_url) "pdf" then "application/pdf"
    else if strContains (pyLower asset_type) "agenda" ||
            strContains (pyLower asset_name) "agenda" then "application/pdf"
    else if strContains (pyLower asset_type) "minutes" ||
            strContains (pyLower asset_name) "minutes" then "application/pdf"
    else ct0
  { url := meeting_url
    asset_name := asset_name
    committee_name := standardizeCommitteeName committee_name
    place := cfg.place
    state_or_province := cfg.state_or_province
    asset_type := asset_type
    meeting_date := meeting_datetime.map DateTime.date
    meeting_time := meeting_datetime.map DateTime.time
    meeting_id := meeting_id
    scraped_by := scrapedBy
    content_type := content_type
    content_length := some (e.length.getD 0) }

/-! ### utils.asset_generated_id (civic_scraper/utils.py)

The Python code hashes the UTF-8 encoding of the input with hashlib's
SHA-256 and keeps the first 16 hex characters.  SHA-256 is embedded below
(FIPS 180-4) over Nat with explicit reduction mod 2^32. -/

/-- Reduce mod 2^32. -/
def w32 (n : Nat) : Nat := n % 4294967296

/-- Rotate a 32-bit word right by n. -/
def rotr32 (n x : Nat) : Nat := w32 (x / 2 ^ n + x * 2 ^ (32 - n))

/-- UTF-8 encoding of one character as byte values. -/
def utf8Encode (c : Char) : List Nat :=
  let n := c.toNat
  if n < 128 then [n]
  else if n < 2048 then [192 + n / 64, 128 + n % 64]
  else if n < 65536 then [224 + n / 4096, 128 + n / 64 % 64, 128 + n % 64]
  else [240 + n / 262144, 128 + n / 4096 % 64, 128 + n / 64 % 64, 128 + n % 64]

/-- UTF-8 bytes of a string (str.encode in Python). -/
def strBytes (s : String) : List Nat := (s.data.map utf8Encode).flatten

/-- Big-endian bytes of a number, k bytes wide. -/
def beBytes (k n : Nat) : List Nat :=
  (List.range k).map fun i => n / 256 ^ (k - 1 - i) % 256

/-- SHA-256 round constants. -/
def shaK : List Nat :=
  [1116352408, 1899447441, 3049323471, 3921009573, 961987163,
   1508970993, 2453635748, 2870763221, 3624381080, 310598401,
   607225278, 1426881987, 1925078388, 2162078206, 2614888103,
   3248222580, 3835390401, 4022224774, 264347078, 604807628,
   770255983, 1249150122, 1555081692, 1996064986, 2554220882,
   2821834349, 2952996808, 3210313671, 3336571891, 3584528711,
   113926993, 338241895, 666307205, 773529912, 1294757372,
   1396182291, 1695183700, 1986661051, 2177026350, 2456956037,
   2730485921, 2820302411, 3259730800, 3345764771, 3516065817,
   3600352804, 4094571909, 275423344, 430227734, 506948616,
   659060556, 883997877, 958139571, 1322822218, 1537002063,
   1747873779, 1955562222, 2024104815, 2227730452, 2361852424,
   2428436474, 2756734187, 3204031479, 3329325298]

/-- SHA-256 initial hash state. -/
def shaH0 : List Nat :=
  [1779033703, 3144134277, 1013904242, 2773480762,
   1359893119, 2600822924, 528734635, 1541459225]

/-- Pad a byte message per SHA-256 (append 0x80, zeros to 56 mod 64, then
the bit length as 8 big-endian bytes). -/
def sha256Pad (msg : List Nat) : List Nat :=
  let L := msg.length
  let zeros := (56 + 64 - (L + 1) % 64) % 64
  msg ++ [128] ++ List.replicate zeros 0 ++ beBytes 8 (8 * L)

/-- Split into chunks of n elements. -/
def chunksOf (n : Nat) : List α → List (List α)
  | [] => []
  | a :: as => (a :: as).take n :: chunksOf n (as.drop (n - 1))
termination_by l => l.length
decreasing_by
  simp only [List.length_cons, List.length_drop]
  omega

/-- 32-bit big-endian words of a byte chunk. -/
def chunkWords (chunk : List Nat) : List Nat :=
  (chunksOf 4 chunk).map fun b4 => b4.foldl (fun a b => a * 256 + b) 0

/-- Message-schedule extension: extend the 16 words to 64. -/
def shaExtend (w : Array Nat) (i : Nat) : Array Nat :=
  if i ≥ 64 then w
  else
    let g := fun j => w.getD j 0
    let s0 := w32 (Nat.xor (Nat.xor (rotr32 7 (g (i - 15))) (rotr32 18 (g (i - 15)))) (g (i - 15) / 2 ^ 3))
    let s1 := w32 (Nat.xor (Nat.xor (rotr32 17 (g (i - 2))) (rotr32 19 (g (i - 2)))) (g (i - 2) / 2 ^ 10))
    shaExtend (w.push (w32 (g (i - 16) + s0 + g (i - 7) + s1))) (i + 1)
termination_by 64 - i

/-- One compression round. -/
def shaRound (st : List Nat) (kw : Nat × Nat) : List Nat :=
  match st with
  | [a, b, c, d, e, f, g, h] =>
    let s1 := w32 (Nat.xor (Nat.xor (rotr32 6 e) (rotr32 11 e)) (rotr32 25 e))
    let ch := w32 (Nat.xor (Nat.land e f) (Nat.land (4294967295 - e) g))
    let t1 := w32 (h + s1 + ch + kw.1 + kw.2)
    let s0 := w32 (Nat.xor (Nat.xor (rotr32 2 a) (rotr32 13 a)) (rotr32 22 a))
    let mj := w32 (Nat.xor (Nat.xor (Nat.land a b) (Nat.land a c)) (Nat.land b c))
    let t2 := w32 (s0 + mj)
    [w32 (t1 + t2), a, b, c, w32 (d + t1), e, f, g]
  | _ => st

/-- Compress one 64-byte chunk into the running state. -/
def shaCompress (h : List Nat) (chunk : List Nat) : List Nat :=
  let w := shaExtend (Array.mk (chunkWords chunk)) 16
  let ks := shaK.zip w.toList
  let out := ks.foldl shaRound h
  (h.zip out).map fun p => w32 (p.1 + p.2)

/-- SHA-256 digest bytes of a string. -/
def sha256Bytes (s : String) : List Nat :=
  let final := (chunksOf 64 (sha256Pad (strBytes s))).foldl shaCompress shaH0
  (final.map (beBytes 4)).flatten

/-- Lowercase hex digit. -/
def hexDigit (n : Nat) : Char :=
  if n < 10 then Char.ofNat (48 + n) else Char.ofNat (87 + n)

/-- Lowercase hex string of a byte list (hexdigest). -/
def toHex (bytes : List Nat) : String :=
  ⟨(bytes.map fun b => [hexDigit (b / 16), hexDigit (b % 16)]).flatten⟩

/-- utils.asset_generated_id: first 16 hex characters of the SHA-256 of
the input. -/
def assetGeneratedId (input : String) : String :=
  ⟨(toHex (sha256Bytes input)).data.take 16⟩

/-! ### Granicus HTML path (granicus/site.py Site._create_asset_from_html_li) -/

/-- One hyperlink of a DOM fragment (href attribute and anchor text). -/
structure HtmlLink where
  href : String
  text : String
deriving DecidableEq, Repr

/-- One table-cell div of a Granicus responsive list item: its data-label
attribute, its text content, and the anchors it contains (in document
order; find picks the first). -/
structure LiCell where
  label : Option String
  text : String
  links : List HtmlLink
deriving DecidableEq, Repr

/-- Label cleanup in _create_asset_from_html_li: drop colons, strip. -/
def cleanLabel (l : String) : String := pyStrip (removeChar ':' l)

/-- The data_map built from the cells: a dict comprehension, so a later
cell with the same cleaned label overwrites an earlier one. -/
def dataMapGet (cells : List LiCell) (key : String) : Option LiCell :=
  cells.foldl
    (fun acc c =>
      match c.label with
      | some l => if cleanLabel l = key then some c else acc
      | none => acc)
    none

/-- First anchor of a cell whose href is truthy (find('a') followed by the
get('href') truthiness test). -/
def cellHref (cell : Option LiCell) : Option String :=
  cell.bind fun c =>
    c.links.head?.bind fun l => if l.href = "" then none else some l.href

/-- Collapse whitespace runs to single spaces and strip, the
re.sub(nonbreaking-space and whitespace) cleanup. -/
def wsNormalizeAux : Bool → List Char → List Char
  | _, [] => []
  | prevWs, c :: cs =>
    if pyWsChar c then
      if prevWs then wsNormalizeAux true cs else ' ' :: wsNormalizeAux true cs
    else c :: wsNormalizeAux false cs

/-- Whitespace normalization applied to the datetime cell text. -/
def wsNormalize (s : String) : String := pyStrip ⟨wsNormalizeAux false s.data⟩

/-- Python str() of an optional value interpolated into an f-string: None
prints as "None". -/
def pyShow : Option String → String
  | some s => s
  | none => "None"

/-- ISO format of a naive datetime (datetime.isoformat()). -/
def isoformat (dt : DateTime) : String :=
  fmtYMD dt.date ++ "T" ++ fmtHMS dt.time

/-- The datetime formats _create_asset_from_html_li tries, in order. -/
def htmlLiFormats : List String :=
  ["%B %d, %Y - %I:%M %p", "%b %d, %Y - %I:%M %p", "%B %d, %Y", "%b %d, %Y"]

/-- granicus/site.py Site._create_asset_from_html_li, lines 137-272:
build an Asset from the table-cell divs of one meeting list item, or none
when a required cell, the datetime parse, or a usable link is missing. -/
def createAssetFromHtmlLi (cfg : GranicusConf) (cells : List LiCell) :
    Option Asset :=
  let meetingCell := dataMapGet cells "Meeting"
  let datetimeCell :=
    match dataMapGet cells "Date/Time" with
    | some c => some c
    | none => dataMapGet cells "Date"
  let agendaCell :=
    match dataMapGet cells "Agenda" with
    | some c => some c
    | none => dataMapGet cells "Public Notice/Agenda"
  let packetCell := dataMapGet cells "Agenda Packet"
  match meetingCell, datetimeCell with
  | some mc, some dc =>
    let asset_name := pyStrip mc.text
    let datetime_str := wsNormalize (pyStrip dc.text)
    match parseDatetimeFormats datetime_str htmlLiFormats with
    | none => none
    | some dt =>
      let meeting_time : Option Time :=
        if dt.time = midnight then none else some dt.time
      let primary : Option (String × String × String) :=
        match cellHref packetCell with
        | some h => some (h, "Agenda Packet", "application/pdf")
        | none =>
          match cellHref agendaCell with
          | some h => some (h, "Agenda", "application/pdf")
          | none =>
            match cellHref (dataMapGet cells "Minutes") with
            | some h => some (h, "Minutes", "application/pdf")
            | none =>
              match cellHref (dataMapGet cells "Video") with
              | some h =>
                some (h, "Video",
                  if strContains h "granicus.com/MediaPlayer.php" then "text/html"
                  else "video/mp4")
              | none => none
      match primary with
      | none => none
      | some (link, asset_type, content_type) =>
        let meeting_url := urljoinLite cfg.url link
        let meeting_id :=
          match extractMeetingId meeting_url with
          | some mid => some mid
          | none =>
            some (assetGeneratedId
              (pyShow cfg.place ++ "-" ++ asset_name ++ "-" ++ isoformat dt))
        some
          { url := meeting_url
            asset_name := asset_name
            committee_name := standardizeCommitteeName asset_name
            place := cfg.place
            state_or_province := cfg.state_or_province
            asset_type := asset_type
            meeting_date := some dt.date
            meeting_time := meeting_time
            meeting_id := meeting_id
            scraped_by := scrapedBy
            content_type := content_type
            content_length := none }
  | _, _ => none

/-! ### Granicus legacy time parsing (granicus/base.py
GranicusBaseScraper._parse_date_time, lines 133-180: the time half; it
reads only the time string and is independent of the date half) -/

/-- The explicit time formats tried in order (the duplicate entry is in
the source). -/
def granicusTimeFormats : List String :=
  ["%I:%M %p", "%H:%M %p", "%I:%M%p", "%H:%M%p", "%H:%M:%S", "%H:%M",
   "%I:%M %p", "%I%M %p"]

/-- Cleanup applied to the time string: drop periods, replace non-breaking
spaces, strip. -/
def cleanTimeStr (time_str : String) : String :=
  pyStrip (replaceCharWith '\xa0' ' ' (removeChar '.' time_str))

/-- Numeric value of a digit-character run. -/
def natOfDigits (cs : List Char) : Nat :=
  cs.foldl (fun a c => a * 10 + digitVal c) 0

/-- Two consecutive digits at the head of the input. -/
def take2Digits : List Char → Option (Nat × List Char)
  | c1 :: c2 :: rest =>
    if c1.isDigit && c2.isDigit then some (digitVal c1 * 10 + digitVal c2, rest)
    else none
  | _ => none

/-- Groups captured by the aggressive regex
(d{1,2})(?:[:.]?(d{2}))?s*(AM|PM|am|pm)? under re.match: the hour digit
run, the optional two-digit minute, and the optional meridiem (true for
PM).  none models a failed match (no leading digit). -/
structure AggMatch where
  hourDigits : List Char
  minute2 : Option Nat
  meridiem : Option Bool
deriving DecidableEq, Repr

/-- Evaluate the aggressive regex at the start of the input (re.match;
trailing unmatched text is ignored, every group after the hour is
optional, so the greedy leftmost parse is the unique one). -/
def aggMatch : List Char → Option AggMatch
  | [] => none
  | c1 :: rest1 =>
    if c1.isDigit then
      let hdRest : List Char × List Char :=
        match rest1 with
        | c2 :: r => if c2.isDigit then ([c1, c2], r) else ([c1], rest1)
        | [] => ([c1], [])
      let miRest : Option Nat × List Char :=
        match hdRest.2 with
        | c :: r =>
          if c = ':' || c = '.' then
            match take2Digits r with
            | some vr => (some vr.1, vr.2)
            | none => (none, hdRest.2)
          else
            match take2Digits hdRest.2 with
            | some vr => (some vr.1, vr.2)
            | none => (none, hdRest.2)
        | [] => (none, [])
      let rest4 := miRest.2.dropWhile pyWsChar
      let mer : Option Bool :=
        if listStartsWith ['A', 'M'] rest4 then some false
        else if listStartsWith ['P', 'M'] rest4 then some true
        else if listStartsWith ['a', 'm'] rest4 then some false
        else if listStartsWith ['p', 'm'] rest4 then some true
        else none
      some ⟨hdRest.1, miRest.1, mer⟩
    else none

/-- Hour/minute resulting from the aggressive branch before the range
check (lines 154-171); the military-time elif in the source can never
fire because the regex captures at most two hour digits, and it is kept
here verbatim. -/
def aggAdjusted (m : AggMatch) : Nat × Nat :=
  let hour0 := natOfDigits m.hourDigits
  let minute0 := m.minute2.getD 0
  match m.meridiem with
  | some true => (if hour0 < 12 then hour0 + 12 else hour0, minute0)
  | some false => (if hour0 = 12 then 0 else hour0, minute0)
  | none =>
    if m.hourDigits.length = 4 && m.minute2.isNone then
      (natOfDigits (m.hourDigits.take 2), natOfDigits (m.hourDigits.drop 2))
    else (hour0, minute0)

/-- The time half of GranicusBaseScraper._parse_date_time: explicit
formats first, then the aggressive fallback when the result is still the
default midnight string; out-of-range extractions keep the default. -/
def parseTimePart (time_str : String) : String :=
  if time_str = "" then "00:00:00"
  else
    let cleaned := cleanTimeStr time_str
    let explicitRes : Option Time :=
      granicusTimeFormats.findSome? fun f => (strptime f cleaned).map DateTime.time
    let parsed0 :=
      match explicitRes with
      | some t => fmtHMS t
      | none => "00:00:00"
    if parsed0 = "00:00:00" && cleaned ≠ "" then
      match aggMatch cleaned.data with
      | some m =>
        let hm := aggAdjusted m
        if hm.1 ≤ 23 && hm.2 ≤ 59 then pad2 hm.1 ++ ":" ++ pad2 hm.2 ++ ":00"
        else "00:00:00"
      | none => "00:00:00"
    else parsed0

/-! ### Granicus Type2 link classification (granicus/type2.py
GranicusType2Scraper._extract_links_from_cells, lines 180-252) -/

/-- The four link slots the row classifier fills. -/
structure LinkState where
  agenda : Option String
  minutes : Option String
  video : Option String
  packet : Option String
deriving DecidableEq, Repr

/-- Anchor text as the classifier sees it: stripped and lowercased. -/
def linkTextLower (l : HtmlLink) : String := pyLower (pyStrip l.text)

/-- Video pass: first link whose href names a viewer script or whose text
contains a video keyword. -/
def findVideoLink (links : List HtmlLink) : Option String :=
  (links.find? fun l =>
    strContains (pyLower l.href) "viewevent.php" ||
    strContains (pyLower l.href) "mediaplayer.php" ||
    ["video", "watch", "media", "view event", "recording"].any
      (strContains (linkTextLower l))).map HtmlLink.href

/-- Packet pass: first link whose text mentions a packet. -/
def findPacketLink (links : List HtmlLink) : Option String :=
  (links.find? fun l =>
    strContains (linkTextLower l) "packet" ||
    strContains (linkTextLower l) "agenda packet").map HtmlLink.href

/-- Agenda pass: first agenda-looking link that is not the packet link and
whose text mentions neither packet nor minutes. -/
def findAgendaLink (packet : Option String) (links : List HtmlLink) :
    Option String :=
  (links.find? fun l =>
    (strContains (linkTextLower l) "agenda" ||
     strContains (pyLower l.href) "agendaviewer.php") &&
    !(packet == some l.href) &&
    !(strContains (linkTextLower l) "packet" ||
      strContains (linkTextLower l) "minutes")).map HtmlLink.href

/-- Minutes pass: first link whose text or href looks like minutes. -/
def findMinutesLink (links : List HtmlLink) : Option String :=
  (links.find? fun l =>
    strContains (linkTextLower l) "minutes" ||
    strContains (pyLower l.href) "minutesviewer.php").map HtmlLink.href

/-- One table cell of a Type2 listing row (only its anchors matter). -/
structure TCell where
  links : List HtmlLink
deriving DecidableEq, Repr

/-- Whether a URL names the agenda viewer script. -/
def agendaSpecificB (u : String) : Bool :=
  strContains (pyLower u) "agendaviewer.php"

/-- Whether a URL names the minutes viewer script. -/
def minutesSpecificB (u : String) : Bool :=
  strContains (pyLower u) "minutesviewer.php"

/-- The final identical-URL check of _extract_links_from_cells (lines
241-252): when agenda and minutes hold the same truthy URL, keep both if
only the agenda is viewer-specific, null agenda if only the minutes is,
and otherwise clear minutes. -/
def finalizeLinks (ag mi : Option String) : Option String × Option String :=
  match ag with
  | some a =>
    if a ≠ "" && some a = mi then
      if agendaSpecificB a && !(minutesSpecificB a) then (ag, mi)
      else if minutesSpecificB a && !(agendaSpecificB a) then (none, mi)
      else (ag, none)
    else (ag, mi)
  | none => (ag, mi)

/-- granicus/type2.py GranicusType2Scraper._extract_links_from_cells:
keyword passes over the row's links, positional cell fallbacks for agenda
(cell 2) and minutes (cell 3), then the identical-URL check. -/
def extractLinksFromCells (cells : List TCell) (allLinks : List HtmlLink) :
    LinkState :=
  let video := findVideoLink allLinks
  let packet := findPacketLink allLinks
  let agenda0 := findAgendaLink packet allLinks
  let minutes0 := findMinutesLink allLinks
  let agenda1 :=
    match agenda0 with
    | some a => some a
    | none =>
      match (cells.drop 2).head? with
      | some c =>
        match c.links.head? with
        | some l =>
          if !(packet == some l.href) && !(minutes0 == some l.href) then
            some l.href
          else none
        | none => none
      | none => none
  let minutes1 :=
    match minutes0 with
    | some m => some m
    | none =>
      match (cells.drop 3).head? with
      | some c =>
        match c.links.head? with
        | some l =>
          if !(agenda1 == some l.href) && !(packet == some l.href) then
            some l.href
          else none
        | none => none
      | none => none
  let fin := finalizeLinks agenda1 minutes1
  ⟨fin.1, fin.2, video, packet⟩

/-! ### Download filters (base/site.py Site._skippable, lines 95-117) -/

/-- The asset fields the download filter reads. -/
structure DlAsset where
  asset_type : String
  content_length : Option Nat
deriving DecidableEq, Repr

/-- Modelled from the spec: Asset.size_mb (base/asset.py is not in the
source tree): the known byte length expressed in megabytes of 1,048,576
bytes, absent when the content length is unknown. -/
def sizeMb (a : DlAsset) : Option ℚ :=
  a.content_length.map fun b => (b : ℚ) / 1048576

/-- Python truthiness of an optional number: None and 0 are falsy. -/
def truthyOptQ : Option ℚ → Bool
  | none => false
  | some q => decide (q ≠ 0)

/-- Python truthiness of an optional list: None and [] are falsy. -/
def truthyOptList : Option (List String) → Bool
  | none => false
  | some l => decide (l ≠ [])

/-- base/site.py Site._skippable: skip when a truthy file_size and a
truthy size_mb exceed the limit, or when a truthy asset_list excludes the
asset type. -/
def skippable (a : DlAsset) (file_size : Option ℚ)
    (asset_list : Option (List String)) : Bool :=
  (truthyOptQ file_size && truthyOptQ (sizeMb a) &&
    decide (file_size.getD 0 < (sizeMb a).getD 0)) ||
  (truthyOptList asset_list && !((asset_list.getD []).contains a.asset_type))

/-! ### Runner (civic_scraper/runner.py) -/

/-- The four platform classes the Runner can dispatch to. -/
inductive SiteClassName where
  | civicPlus | granicus | boardDocs | legistar
deriving DecidableEq, Repr

/-- runner.py Runner._get_site_class_name: substring patterns tried in
order; an unmatched URL raises ScraperError (the error value here). -/
def getSiteClassName (url : String) : Except String SiteClassName :=
  if strContains url "civicplus" || strContains url "AgendaCenter" then
    .ok .civicPlus
  else if strContains url "granicus" || strContains url "granicusid" then
    .ok .granicus
  else if strContains url "boarddocs" then .ok .boardDocs
  else if strContains url "legistar" then .ok .legistar
  else .error ("Could not determine site type from URL: " ++ url)

/-- runner.py Runner.scrape, lines 66-108: for each site URL the class
lookup, construction and scrape all happen inside one try block whose
except clause logs the error and continues with the next URL.  The
per-site work is abstracted as impl; the returned pair is the asset
collection and the log of error messages. -/
def runnerScrape (impl : SiteClassName → String → Except String (List α)) :
    List String → List α × List String
  | [] => ([], [])
  | url :: rest =>
    let tail := runnerScrape impl rest
    match getSiteClassName url with
    | .error e => (tail.1, ("Error scraping " ++ url ++ ": " ++ e) :: tail.2)
    | .ok cls =>
      match impl cls url with
      | .error e => (tail.1, ("Error scraping " ++ url ++ ": " ++ e) :: tail.2)
      | .ok assets => (assets ++ tail.1, tail.2)

/-! ### CivicClerk extraction (civic_clerk/site.py) -/

/-- One raw CivicClerk meeting dictionary as built by the fallbacks. -/
structure CCMeeting where
  id : String
  name : String
  dateText : Option String
  groupName : String
deriving DecidableEq, Repr

/-- Python `a or b` on strings (empty string is falsy). -/
def pyOrStr (a b : String) : String := if a = "" then b else a

/-- A DOM container element as read by _fetch_meetings_from_dom. -/
structure DomElement where
  dataMeetingId : Option String
  idAttr : Option String
  nameText : Option String
  dateText : Option String
  groupText : Option String
deriving DecidableEq, Repr

/-- civic_clerk/site.py _fetch_meetings_from_dom, lines 702-746: the id is
the data-meeting-id attribute, else the id attribute, else a fresh random
UUID (passed in explicitly as freshUuid); records lacking id or name are
dropped. -/
def domMeetingFromElement (freshUuid : String) (el : DomElement) :
    Option CCMeeting :=
  let mid0 := pyOrStr (el.dataMeetingId.getD "") (el.idAttr.getD "")
  let mid := if mid0 = "" then freshUuid else mid0
  let name :=
    match el.nameText with
    | some t => pyStrip t
    | none => "Meeting"
  let group :=
    match el.groupText with
    | some t => pyStrip t
    | none => "Committee"
  if mid ≠ "" && name ≠ "" then some ⟨mid, name, el.dateText, group⟩ else none

/-- A calendar-page element as read by the calendar fallback in events. -/
structure CalElement where
  titleText : Option String
  dateText : Option String
  committeeText : Option String
deriving DecidableEq, Repr

/-- civic_clerk/site.py events, lines 824-874 (calendar fallback): every
meeting id on this path is a fresh random UUID (passed in explicitly as
freshUuid); elements without a date are skipped. -/
def calendarMeetingFromElement (freshUuid : String) (el : CalElement) :
    Option CCMeeting :=
  match el.dateText with
  | none => none
  | some d =>
    some ⟨freshUuid, (el.titleText.map pyStrip).getD "Calendar Meeting",
      some d, (el.committeeText.map pyStrip).getD "Committee"⟩

/-- civic_clerk/site.py scrape, line 920: the standardized meeting id. -/
def civicClerkMeetingId (inst rawId : String) : String :=
  "civicclerk_" ++ inst ++ "_" ++ rawId

/-- civic_plus/site.py Site._mk_mtg_id, line 190. -/
def civicPlusMkMtgId (subdomain raw : String) : String :=
  "civicplus_" ++ subdomain ++ "_" ++ pyLstripChar '_' raw

/-- legistar/site.py Site._extract_meeting_meta, lines 241-243. -/
def legistarMeetingId (inst rawId : String) : String :=
  "legistar_" ++ inst ++ "_" ++ rawId

/-! ### Standardized scrape signatures (Python keyword-call binding) -/

/-- A Python callable's parameter list after self: names in order, the
subset having defaults, and whether a **kwargs catch-all exists. -/
structure PyParams where
  names : List String
  optional : List String
  varKeywords : Bool
deriving DecidableEq, Repr

/-- Whether a keyword-only call with the given argument names binds
without a TypeError: every keyword must match a parameter (or be absorbed
by **kwargs) and every parameter without a default must be supplied. -/
def bindsCall (p : PyParams) (kwargs : List String) : Bool :=
  kwargs.all (fun k => p.names.contains k || p.varKeywords) &&
  p.names.all fun n => p.optional.contains n || kwargs.contains n

/-- base/site.py Site.scrape signature. -/
def baseScrapeParams : PyParams :=
  ⟨["start_date", "end_date", "download", "cache", "file_size", "asset_list"],
   ["start_date", "end_date", "download", "cache", "file_size", "asset_list"],
   false⟩

/-- civic_plus/site.py Site.scrape signature. -/
def civicPlusScrapeParams : PyParams :=
  ⟨["start_date", "end_date", "cache", "download", "file_size", "asset_list"],
   ["start_date", "end_date", "cache", "download", "file_size", "asset_list"],
   false⟩

/-- granicus/site.py Site.scrape signature (**kwargs only). -/
def granicusScrapeParams : PyParams := ⟨[], [], true⟩

/-- legistar/site.py Site.scrape signature. -/
def legistarScrapeParams : PyParams :=
  ⟨["start_date", "end_date", "download", "cache", "file_size", "asset_list"],
   ["start_date", "end_date", "download", "cache", "file_size", "asset_list"],
   false⟩

/-- civic_clerk/site.py CivicClerkSite.scrape signature, line 895:
only download, with a default. -/
def civicClerkScrapeParams : PyParams := ⟨["download"], ["download"], false⟩

/-- Modelled from the spec: boarddocs/site.py is not in the source tree;
per the spec the BoardDocs scraper honors the standardized scrape
signature (and tests/test_standardized_interfaces.py calls it with all
six keywords). -/
def boardDocsScrapeParams : PyParams :=
  ⟨["start_date", "end_date", "download", "cache", "file_size", "asset_list"],
   ["start_date", "end_date", "download", "cache", "file_size", "asset_list"],
   false⟩

/-- The standardized keyword set the Runner passes to every site. -/
def stdScrapeKwargs : List String :=
  ["start_date", "end_date", "cache", "download", "file_size", "asset_list"]

/-! ### Granicus legacy-layout dispatch -/

/-- The four legacy layout strategies. -/
inductive GType where
  | t1 | t2 | t3 | t4
deriving DecidableEq, Repr

/-- granicus/base.py GranicusBaseScraper.requires_panel_name (lines
304-312, default True, inherited by Type1, Type2 and Type4) with the
type3.py override (lines 245-252, False). -/
def requiresPanelName : GType → Bool
  | .t3 => false
  | _ => true

/-- The fixed priority order of the legacy dispatch. -/
def granicusDispatchOrder : List GType := [.t1, .t2, .t4, .t3]

/-- Modelled from the spec: scrape_granicus_platform (imported from
granicus/site.py by scripts/test_granicus.py but absent from the source
tree).  The spec states the dispatch tries Type1, Type2, Type4 then Type3
in that order, short-circuits on the first strategy returning a non-empty
standardized result, and skips outright (without attempting) a strategy
that structurally requires a panel name when none was supplied.  results
gives each strategy's standardized output; the first component of the
value is the log of strategies actually attempted, in order. -/
def dispatchGo (results : GType → List α) (panel : Option String) :
    List GType → List GType × List α
  | [] => ([], [])
  | t :: rest =>
    if requiresPanelName t && panel.isNone then dispatchGo results panel rest
    else
      match results t with
      | [] =>
        let tail := dispatchGo results panel rest
        (t :: tail.1, tail.2)
      | r => ([t], r)

/-- The legacy dispatch over the fixed strategy order. -/
def dispatchGranicus (results : GType → List α) (panel : Option String) :
    List GType × List α :=
  dispatchGo results panel granicusDispatchOrder

/-! ### Concrete inputs used by the theorems -/

/-- A Granicus RSS site configuration. -/
def cfgRss : GranicusConf :=
  ⟨"https://cityofx.granicus.com/ViewPublisherRSS.php?view_id=1",
   some "cityofx", some "FL"⟩

/-- An RSS entry whose title date is unparseable by both configured
formats and whose published_parsed struct has an out-of-range month, so
that converting it raises and the code falls back to datetime.now(). -/
def entryUnparseable : RSSEntry :=
  ⟨"City Council - Agenda - To Be Determined",
   "https://cityofx.granicus.com/MediaPlayer.php?clip_id=7",
   some ⟨2024, 13, 1, 12, 0, 0⟩, none, none, none⟩

/-- The end-to-end example entry of the spec: the title from the
standardized example and a numeric ID query parameter (uppercase, as
written in the spec) in the entry link. -/
def entrySpecID : RSSEntry :=
  ⟨"City Council - Agenda - Jan 15, 2024",
   "https://cityofx.granicus.com/AgendaViewer.php?view_id=2&ID=4521",
   none, none, none, none⟩

/-- The same entry with the id parameter in lowercase, which the
extractor's key list does recognize. -/
def entryLowerId : RSSEntry :=
  ⟨"City Council - Agenda - Jan 15, 2024",
   "https://cityofx.granicus.com/AgendaViewer.php?view_id=2&id=4521",
   none, none, none, none⟩

/-- A fixed wall-clock instant for evaluating entries that never read the
clock. -/
def nowFixed : DateTime := ⟨⟨2026, 10, 12⟩, ⟨9, 30, 0⟩⟩

/-- A calendar-page element: fixed raw metadata, no platform id. -/
def elCalendarDemo : CalElement :=
  ⟨some "City Council", some "2024-01-15", none⟩

/-- A DOM element that does expose a platform-native id. -/
def elDomWithId : DomElement :=
  ⟨some "mtg-77", none, some "City Council", some "2024-01-15", none⟩

/-- The identical URL appearing under both an Agenda-texted and a
Minutes-texted anchor in one row. -/
def sharedViewerUrl : String :=
  "https://g.example.com/AgendaViewer.php?view_id=1&clip_id=9"

/-- The row links for the C2 scenario. -/
def linkRowIdentical : List HtmlLink :=
  [⟨sharedViewerUrl, "Agenda"⟩, ⟨sharedViewerUrl, "Minutes"⟩]

/-- A URL matching none of the Runner's URL-pattern rules. -/
def unmatchedUrl : String := "https://example.com/calendar/page"

/-- Whether a strategy is eligible to be attempted for a given panel
argument (a panel-requiring strategy is skipped when no panel exists). -/
def dispatchEligible (panel : Option String) (t : GType) : Bool :=
  !(requiresPanelName t && panel.isNone)

/-- The result table of the spec's cascade test: Type1 finds nothing,
Type2 succeeds, the later strategies would also succeed if (wrongly)
consulted. -/
def cascadeResults : GType → List Nat
  | .t1 => []
  | .t2 => [7]
  | _ => [9]

/-- The Granicus HTML site configuration for the C9 scenario. -/
def cfgHtml : GranicusConf :=
  ⟨"https://coralsprings.granicus.com/ViewPublisher.php?view_id=3",
   some "coralsprings", some "FL"⟩

/-- A meeting list item whose datetime cell carries an explicitly written
midnight time. -/
def liExplicitMidnight : List LiCell :=
  [⟨some "Meeting:", "Planning Commission", []⟩,
   ⟨some "Date/Time:", "Apr 23, 2025 - 12:00 AM", []⟩,
   ⟨some "Agenda:", "Agenda",
    [⟨"https://coralsprings.granicus.com/AgendaViewer.php?view_id=3&event_id=55",
      "Agenda"⟩]⟩]

/-! ### C1 -/

/-- C1: the claim states that a record whose date string no configured
format parses is skipped on every extraction path and that no Asset ever
carries a wall-clock-fabricated meeting_date.  The Granicus RSS path
violates this: _create_asset_from_rss_entry still returns an Asset for
entryUnparseable, and its meeting_date is the current wall-clock date
(datetime.now()) because the published_parsed struct fails to convert.
This theorem evaluates the embedded code at that failing input, for every
value of the clock. -/
theorem c1_rss_fallback_fabricates_wallclock_date (now : DateTime) :
    (createAssetFromRssEntry cfgRss now entryUnparseable).meeting_date =
      some now.date :=
  rfl

/-! ### C4 -/

/-- C4 counterexample: on the spec's own end-to-end input (title
"City Council - Agenda - Jan 15, 2024", uppercase ID=4521 in the link)
the standardized record has the claimed committee, type and date, but its
meeting_id is absent — not "granicus_(instance)_4521" — because the
extractor checks the query keys case-sensitively and never composes a
platform/instance prefix. -/
theorem c4_spec_example_meeting_id_refuted :
    (createAssetFromRssEntry cfgRss nowFixed entrySpecID).committee_name =
        "City Council" ∧
    (createAssetFromRssEntry cfgRss nowFixed entrySpecID).asset_type =
        "Agenda" ∧
    (createAssetFromRssEntry cfgRss nowFixed entrySpecID).meeting_date =
        some ⟨2024, 1, 15⟩ ∧
    (createAssetFromRssEntry cfgRss nowFixed entrySpecID).meeting_id =
        none := by
  refine ⟨rfl, rfl, rfl, rfl⟩

/-- C4 amended: on the Granicus RSS path the emitted meeting_id is the
bare raw id string taken from the first of the query keys clip_id,
meta_id, event_id, id, meeting_id present in the entry link — checked
case-sensitively, so an uppercase ID parameter yields an absent
meeting_id — with no platform/instance prefix; committee_name, asset_type
and meeting_date come out as the claim states.  The platform_instance_rawid
composition does hold for the CivicPlus, Legistar and CivicClerk id
builders. -/
theorem c4_granicus_rss_bare_raw_id :
    (createAssetFromRssEntry cfgRss nowFixed entryLowerId).meeting_id =
        some "4521" ∧
    (createAssetFromRssEntry cfgRss nowFixed entryLowerId).committee_name =
        "City Council" ∧
    (createAssetFromRssEntry cfgRss nowFixed entryLowerId).asset_type =
        "Agenda" ∧
    (createAssetFromRssEntry cfgRss nowFixed entryLowerId).meeting_date =
        some ⟨2024, 1, 15⟩ ∧
    civicPlusMkMtgId "ca-cityofx" "_1234" = "civicplus_ca-cityofx_1234" ∧
    legistarMeetingId "cityofx" "123" = "legistar_cityofx_123" ∧
    civicClerkMeetingId "cityofx" "88" = "civicclerk_cityofx_88" := by
  refine ⟨rfl, rfl, rfl, rfl, rfl, rfl, rfl⟩

/-! ### C3 -/

/-- C3 counterexample: re-extracting the same calendar element twice with
identical raw metadata but (necessarily) different uuid4 draws yields
different standardized meeting_id values, so meeting_id is not a pure
function of the raw inputs on the CivicClerk calendar path. -/
theorem c3_calendar_uuid_breaks_idempotence :
    (calendarMeetingFromElement "1f2e3d4c" elCalendarDemo).map
        (fun m => civicClerkMeetingId "demo" m.id) ≠
      (calendarMeetingFromElement "a9b8c7d6" elCalendarDemo).map
        (fun m => civicClerkMeetingId "demo" m.id) := by
  decide

/-- C3 amended: meeting_id is a pure function of the raw inputs on every
path where a platform-native id is available — the CivicClerk DOM path is
independent of the uuid draw whenever the element carries a
data-meeting-id or id attribute, and the Granicus RSS meeting_id never
depends on the wall clock even on the datetime.now() fallback — but on
the CivicClerk DOM/calendar fallbacks without such an id the raw id is a
fresh random UUID and the emitted meeting_id is not reproducible. -/
theorem c3_meeting_id_pure_where_raw_id_exists :
    (∀ (u u' : String) (el : DomElement),
      pyOrStr (el.dataMeetingId.getD "") (el.idAttr.getD "") ≠ "" →
      domMeetingFromElement u el = domMeetingFromElement u' el) ∧
    (∀ (cfg : GranicusConf) (e : RSSEntry) (now now' : DateTime),
      (createAssetFromRssEntry cfg now e).meeting_id =
        (createAssetFromRssEntry cfg now' e).meeting_id) := by
  constructor
  · intro u u' el h
    unfold domMeetingFromElement
    simp only [if_neg h]
  · intro cfg e now now'
    rfl

/-- C3 witness: the amended theorem applied at a DOM element with a
platform id and at two distinct uuid draws. -/
theorem c3_witness :
    pyOrStr (elDomWithId.dataMeetingId.getD "") (elDomWithId.idAttr.getD "") ≠ "" ∧
    domMeetingFromElement "1f2e3d4c" elDomWithId =
      domMeetingFromElement "a9b8c7d6" elDomWithId :=
  ⟨by decide, c3_meeting_id_pure_where_raw_id_exists.1 "1f2e3d4c" "a9b8c7d6"
    elDomWithId (by decide)⟩

/-! ### C2 -/

/-- C2 counterexample: a row in which the agenda-texted and minutes-texted
anchors share one AgendaViewer URL.  The collision pass hits the
agenda-specific branch, which merely passes, so the final record carries
the identical URL in both slots: the claimed exclusivity and the claimed
nulling of the non-specific duplicate both fail on the code. -/
theorem c2_identical_url_in_both_slots :
    (extractLinksFromCells [] linkRowIdentical).agenda = some sharedViewerUrl ∧
    (extractLinksFromCells [] linkRowIdentical).minutes = some sharedViewerUrl :=
  ⟨rfl, rfl⟩

/-- Helper: whenever the collision pass leaves the same truthy URL in both
slots, that URL matched the agenda viewer pattern and not the minutes
viewer pattern. -/
theorem finalizeLinks_shared (a m : Option String) (u : String) (hu : u ≠ "")
    (h1 : (finalizeLinks a m).1 = some u)
    (h2 : (finalizeLinks a m).2 = some u) :
    agendaSpecificB u = true ∧ minutesSpecificB u = false := by
  rcases a with _ | x
  · exact absurd h1 (by simp [finalizeLinks])
  · have key : finalizeLinks (some x) m =
        if decide (x ≠ "") && decide (some x = m) then
          (if agendaSpecificB x && !minutesSpecificB x then ((some x : Option String), m)
           else if minutesSpecificB x && !agendaSpecificB x then (none, m)
           else (some x, none))
        else (some x, m) := rfl
    rw [key] at h1 h2
    by_cases hcond : (decide (x ≠ "") && decide (some x = m)) = true
    · rw [if_pos hcond] at h1 h2
      by_cases hA : (agendaSpecificB x && !minutesSpecificB x) = true
      · rw [if_pos hA] at h1
        have hxu : x = u := by simpa using h1
        subst hxu
        simp only [Bool.and_eq_true, Bool.not_eq_true'] at hA
        exact ⟨hA.1, hA.2⟩
      · rw [if_neg hA] at h1 h2
        by_cases hB : (minutesSpecificB x && !agendaSpecificB x) = true
        · rw [if_pos hB] at h1
          exact absurd h1 (by simp)
        · rw [if_neg hB] at h2
          exact absurd h2 (by simp)
    · rw [if_neg hcond] at h1 h2
      have hxu : x = u := by simpa using h1
      subst hxu
      have hm : m = some x := h2
      exact absurd (by simp [hu, hm]) hcond

/-- C2 amended: when the agenda and minutes candidates are byte-identical
URLs, the code keeps the minutes-specific one and nulls agenda, clears
minutes when both or neither is specific, but when only the agenda
candidate is specific it keeps BOTH fields on the same URL (it does not
null minutes).  Consequently a URL appears in both slots of the final
record exactly when it matches AgendaViewer.php and not MinutesViewer.php. -/
theorem c2_collision_resolution_amended :
    (∀ (cells : List TCell) (links : List HtmlLink) (u : String), u ≠ "" →
      (extractLinksFromCells cells links).agenda = some u →
      (extractLinksFromCells cells links).minutes = some u →
      agendaSpecificB u = true ∧ minutesSpecificB u = false) ∧
    (∀ u : String, u ≠ "" → minutesSpecificB u = true → agendaSpecificB u = false →
      finalizeLinks (some u) (some u) = (none, some u)) ∧
    (∀ u : String, u ≠ "" → minutesSpecificB u = agendaSpecificB u →
      finalizeLinks (some u) (some u) = (some u, none)) := by
  refine ⟨?_, ?_, ?_⟩
  · intro cells links u hu h1 h2
    exact finalizeLinks_shared _ _ u hu h1 h2
  · intro u hu hmi hag
    have key : finalizeLinks (some u) (some u) =
        if decide (u ≠ "") && decide ((some u : Option String) = some u) then
          (if agendaSpecificB u && !minutesSpecificB u then
            ((some u : Option String), (some u : Option String))
           else if minutesSpecificB u && !agendaSpecificB u then (none, some u)
           else (some u, none))
        else (some u, some u) := rfl
    rw [key, if_pos (by simp [hu]), if_neg (by simp [hag]), if_pos (by simp [hmi, hag])]
  · intro u hu heq
    have key : finalizeLinks (some u) (some u) =
        if decide (u ≠ "") && decide ((some u : Option String) = some u) then
          (if agendaSpecificB u && !minutesSpecificB u then
            ((some u : Option String), (some u : Option String))
           else if minutesSpecificB u && !agendaSpecificB u then (none, some u)
           else (some u, none))
        else (some u, some u) := rfl
    rw [key, if_pos (by simp [hu])]
    by_cases hA : agendaSpecificB u = true
    · have hm : minutesSpecificB u = true := heq.trans hA
      rw [if_neg (by simp [hm]), if_neg (by simp [hA])]
    · have hA2 : agendaSpecificB u = false := by
        cases hre : agendaSpecificB u with
        | false => rfl
        | true => exact absurd hre hA
      have hm : minutesSpecificB u = false := heq.trans hA2
      rw [if_neg (by simp [hA2]), if_neg (by simp [hm])]

/-- C2 witness: the amended theorem applied at the counterexample row. -/
theorem c2_witness :
    (extractLinksFromCells [] linkRowIdentical).agenda = some sharedViewerUrl ∧
    (agendaSpecificB sharedViewerUrl = true ∧
      minutesSpecificB sharedViewerUrl = false) :=
  ⟨rfl, c2_collision_resolution_amended.1 [] linkRowIdentical sharedViewerUrl
    (by decide) rfl rfl⟩

/-! ### C5 -/

/-- C5 counterexample: a multi-site scrape whose only URL matches no
URL-pattern rule returns normally with an empty collection and a logged
error — the unsupported-site error does not propagate to the top-level
caller, contradicting the claim that it is the one error that does. -/
theorem c5_unsupported_site_error_swallowed :
    runnerScrape (fun _ _ => Except.ok ([] : List Nat)) [unmatchedUrl] =
      ([], ["Error scraping https://example.com/calendar/page: " ++
        "Could not determine site type from URL: https://example.com/calendar/page"]) :=
  rfl

/-- C5 amended: the unsupported-site error is raised when no URL-pattern
rule matches, but Runner.scrape wraps the class lookup in the same
per-site try/except as the scraping itself, so it is caught, logged and
the batch continues with the remaining sites exactly like every other
per-site error; no per-site error propagates to the top-level caller. -/
theorem c5_unsupported_site_logged_and_continues :
    ∀ (impl : SiteClassName → String → Except String (List Nat))
      (url : String) (rest : List String) (e : String),
      getSiteClassName url = .error e →
      runnerScrape impl (url :: rest) =
        ((runnerScrape impl rest).1,
         ("Error scraping " ++ url ++ ": " ++ e) :: (runnerScrape impl rest).2) := by
  intro impl url rest e h
  simp only [runnerScrape, h]

/-- C5 witness: the amended theorem applied to the unmatched URL followed
by a Granicus site that yields one asset. -/
theorem c5_witness :
    getSiteClassName unmatchedUrl =
      .error ("Could not determine site type from URL: " ++ unmatchedUrl) ∧
    runnerScrape (fun _ _ => Except.ok ([7] : List Nat))
        [unmatchedUrl, "https://x.granicus.com/ViewPublisher.php?view_id=1"] =
      (((runnerScrape (fun _ _ => Except.ok ([7] : List Nat))
          ["https://x.granicus.com/ViewPublisher.php?view_id=1"]).1,
        ("Error scraping " ++ unmatchedUrl ++ ": " ++
          ("Could not determine site type from URL: " ++ unmatchedUrl)) ::
        (runnerScrape (fun _ _ => Except.ok ([7] : List Nat))
          ["https://x.granicus.com/ViewPublisher.php?view_id=1"]).2)) :=
  ⟨rfl, c5_unsupported_site_logged_and_continues _ unmatchedUrl
    ["https://x.granicus.com/ViewPublisher.php?view_id=1"] _ rfl⟩

/-! ### C8 -/

/-- C8 counterexample: the CivicClerk scrape signature (download only)
does not bind the standardized keyword set — the call raises TypeError —
so not every platform extractor accepts the standardized arguments. -/
theorem c8_civic_clerk_rejects_standard_kwargs :
    bindsCall civicClerkScrapeParams stdScrapeKwargs = false := by
  decide

/-- C8 amended: the base interface and the CivicPlus, Granicus, Legistar
and BoardDocs extractors all accept the standardized scrape argument set
(start_date, end_date, download, cache, file_size, asset_list), but the
CivicClerk extractor accepts only download and rejects the standardized
call. -/
theorem c8_scrape_signatures :
    bindsCall baseScrapeParams stdScrapeKwargs = true ∧
    bindsCall civicPlusScrapeParams stdScrapeKwargs = true ∧
    bindsCall granicusScrapeParams stdScrapeKwargs = true ∧
    bindsCall legistarScrapeParams stdScrapeKwargs = true ∧
    bindsCall boardDocsScrapeParams stdScrapeKwargs = true ∧
    bindsCall civicClerkScrapeParams stdScrapeKwargs = false := by
  decide

/-! ### C7 -/

/-- Helper: the attempted strategies form an order-preserving selection of
the eligible strategies. -/
theorem dispatchGo_attempts_sublist (results : GType → List Nat)
    (panel : Option String) (l : List GType) :
    (dispatchGo results panel l).1.Sublist (l.filter (dispatchEligible panel)) := by
  induction l with
  | nil => simp [dispatchGo]
  | cons t rest ih =>
    by_cases hskip : (requiresPanelName t && panel.isNone) = true
    · have helig : dispatchEligible panel t = false := by
        simp [dispatchEligible, hskip]
      simp only [dispatchGo, if_pos hskip, List.filter_cons, helig]
      simpa using ih
    · have hx : (requiresPanelName t && panel.isNone) = false := by
        cases hb : (requiresPanelName t && panel.isNone) with
        | true => exact absurd hb hskip
        | false => rfl
      have helig : dispatchEligible panel t = true := by
        simp [dispatchEligible, hx]
      simp only [dispatchGo, if_neg hskip]
      cases hres : results t with
      | nil =>
        simp only [List.filter_cons, helig, if_pos rfl]
        exact (List.cons_sublist_cons).mpr ih
      | cons x xs =>
        simp only [List.filter_cons, helig, if_pos rfl]
        exact (List.cons_sublist_cons).mpr (List.nil_sublist _)

/-- Helper: every attempted strategy except the final one returned an
empty result (the dispatch never proceeds past a success). -/
theorem dispatchGo_dropLast_empty (results : GType → List Nat)
    (panel : Option String) (l : List GType) (t : GType)
    (h : t ∈ (dispatchGo results panel l).1.dropLast) : results t = [] := by
  induction l with
  | nil => simp [dispatchGo] at h
  | cons s rest ih =>
    by_cases hskip : (requiresPanelName s && panel.isNone) = true
    · rw [show dispatchGo results panel (s :: rest) = dispatchGo results panel rest
        from by rw [dispatchGo, if_pos hskip]] at h
      exact ih h
    · rw [dispatchGo, if_neg hskip] at h
      cases hres : results s with
      | nil =>
        rw [hres] at h
        dsimp only at h
        cases htail : (dispatchGo results panel rest).1 with
        | nil => simp [htail, List.dropLast] at h
        | cons y ys =>
          rw [htail] at h
          simp only [List.dropLast] at h
          rcases List.mem_cons.mp h with rfl | hmem
          · exact hres
          · exact ih (by rw [htail]; exact hmem)
      | cons x xs =>
        rw [hres] at h
        simp [List.dropLast] at h

/-- Helper: a non-empty dispatch output is exactly the result of the last
attempted strategy. -/
theorem dispatchGo_output_last (results : GType → List Nat)
    (panel : Option String) (l : List GType)
    (h : (dispatchGo results panel l).2 ≠ []) :
    ∃ t, (dispatchGo results panel l).1.getLast? = some t ∧
      results t = (dispatchGo results panel l).2 := by
  induction l with
  | nil => simp [dispatchGo] at h
  | cons s rest ih =>
    by_cases hskip : (requiresPanelName s && panel.isNone) = true
    · rw [show dispatchGo results panel (s :: rest) = dispatchGo results panel rest
        from by rw [dispatchGo, if_pos hskip]] at h ⊢
      exact ih h
    · rw [dispatchGo, if_neg hskip] at h ⊢
      cases hres : results s with
      | nil =>
        simp only [hres] at h ⊢
        obtain ⟨t, hlast, heq⟩ := ih h
        refine ⟨t, ?_, heq⟩
        cases htail : (dispatchGo results panel rest).1 with
        | nil => rw [htail] at hlast; simp at hlast
        | cons y ys =>
          rw [htail] at hlast
          simpa [List.getLast?_cons_cons] using hlast
      | cons x xs =>
        simp only [hres]
        exact ⟨s, rfl, hres⟩

/-- C7: the legacy dispatch (modelled from the spec, driving the
requires_panel_name flags of the source) tries Type1, Type2, Type4, Type3
in that fixed order: the attempt log is an order-preserving selection of
the eligible strategies, every attempt before the last returned empty (no
strategy runs after a success), a non-empty output is the last attempt's
result, without a panel name only Type3 can be attempted, and on the
spec's cascade scenario exactly Type1 then Type2 run and Type2's result
is returned. -/
theorem c7_dispatch_order_and_short_circuit :
    (∀ (results : GType → List Nat) (panel : Option String),
      (dispatchGranicus results panel).1.Sublist
        (granicusDispatchOrder.filter (dispatchEligible panel))) ∧
    (∀ (results : GType → List Nat) (panel : Option String) (t : GType),
      t ∈ (dispatchGranicus results panel).1.dropLast → results t = []) ∧
    (∀ (results : GType → List Nat) (panel : Option String),
      (dispatchGranicus results panel).2 ≠ [] →
      ∃ t, (dispatchGranicus results panel).1.getLast? = some t ∧
        results t = (dispatchGranicus results panel).2) ∧
    (∀ results : GType → List Nat,
      (dispatchGranicus results none).1.Sublist [GType.t3]) ∧
    dispatchGranicus cascadeResults (some "City Council") =
      ([GType.t1, GType.t2], [7]) := by
  refine ⟨?_, ?_, ?_, ?_, rfl⟩
  · intro results panel
    exact dispatchGo_attempts_sublist results panel granicusDispatchOrder
  · intro results panel t h
    exact dispatchGo_dropLast_empty results panel granicusDispatchOrder t h
  · intro results panel h
    exact dispatchGo_output_last results panel granicusDispatchOrder h
  · intro results
    have h := dispatchGo_attempts_sublist results none granicusDispatchOrder
    rwa [show granicusDispatchOrder.filter (dispatchEligible none) = [GType.t3]
      from rfl] at h

/-- C7 witness: the dispatch theorem applied to the cascade scenario. -/
theorem c7_witness :
    (dispatchGranicus cascadeResults (some "City Council")).2 ≠ [] ∧
    ∃ t, (dispatchGranicus cascadeResults (some "City Council")).1.getLast? =
        some t ∧
      cascadeResults t = (dispatchGranicus cascadeResults (some "City Council")).2 :=
  ⟨by decide, c7_dispatch_order_and_short_circuit.2.2.1 cascadeResults
    (some "City Council") (by decide)⟩

/-! ### C6 -/

/-- C6: with asset_list restricted to agenda and a 5 MB limit, the
download filter skips exactly the assets whose type is not "agenda"
together with those whose known byte length exceeds 5 x 1,048,576 bytes;
an asset with no known content length is never size-filtered. -/
theorem c6_filter_composition (a : DlAsset) :
    skippable a (some 5) (some ["agenda"]) =
      (!(a.asset_type == "agenda") ||
        (match a.content_length with
         | some b => decide (5242880 < b)
         | none => false)) := by
  rcases a with ⟨t, bl⟩
  rcases bl with _ | b
  · simp [skippable, sizeMb, truthyOptQ, truthyOptList]
    by_cases h : t = "agenda" <;> simp [h]
  · by_cases hb : 5242880 < b
    · have h1 : (5 : ℚ) < (b : ℚ) / 1048576 := by
        rw [lt_div_iff₀ (by norm_num : (0 : ℚ) < 1048576)]
        have : ((5242880 : Nat) : ℚ) < (b : ℚ) := by exact_mod_cast hb
        calc (5 : ℚ) * 1048576 = ((5242880 : Nat) : ℚ) := by norm_num
        _ < (b : ℚ) := this
      have h2 : (b : ℚ) / 1048576 ≠ 0 := by
        have hbpos : (0 : ℚ) < (b : ℚ) / 1048576 := lt_trans (by norm_num) h1
        exact ne_of_gt hbpos
      simp [skippable, sizeMb, truthyOptQ, truthyOptList, h1, h2, hb]
    · have h1 : ¬((5 : ℚ) < (b : ℚ) / 1048576) := by
        rw [lt_div_iff₀ (by norm_num : (0 : ℚ) < 1048576)]
        intro hcon
        apply hb
        have : ((5242880 : Nat) : ℚ) < (b : ℚ) := by
          calc ((5242880 : Nat) : ℚ) = (5 : ℚ) * 1048576 := by norm_num
          _ < (b : ℚ) := hcon
        exact_mod_cast this
      simp [skippable, sizeMb, truthyOptQ, truthyOptList, h1, hb]
      all_goals by_cases h : t = "agenda" <;> simp [h]

/-! ### C10 -/

/-- C10: the aggressive fallback parses the 4-digit military form 1300 as
13:00, and for any time string none of the explicit formats parses, an
aggressive extraction whose adjusted hour exceeds 23 or minute exceeds 59
is rejected — the result stays the default midnight string, never a
clamped time. -/
theorem c10_aggressive_time_fallback :
    parseTimePart "1300" = "13:00:00" ∧
    (∀ (s : String) (am : AggMatch) (h m : Nat),
      (∀ f ∈ granicusTimeFormats, strptime f (cleanTimeStr s) = none) →
      aggMatch (cleanTimeStr s).data = some am →
      aggAdjusted am = (h, m) →
      23 < h ∨ 59 < m →
      parseTimePart s = "00:00:00") := by
  refine ⟨rfl, ?_⟩
  intro s am h m hfmts hagg hadj hrange
  unfold parseTimePart
  by_cases hempty : s = ""
  · rw [if_pos hempty]
  · rw [if_neg hempty]
    have hex : (granicusTimeFormats.findSome? fun f =>
        (strptime f (cleanTimeStr s)).map DateTime.time) = none := by
      rw [List.findSome?_eq_none_iff]
      intro f hf
      rw [hfmts f hf]
      rfl
    have hcl : cleanTimeStr s ≠ "" := by
      intro hc
      rw [hc] at hagg
      exact absurd hagg (by simp [aggMatch])
    simp only [hex]
    rw [if_pos (by simp [hcl]), hagg]
    simp only [hadj]
    rw [if_neg (by
      simp only [Bool.and_eq_true, decide_eq_true_eq, not_and]
      intro hh hm2
      rcases hrange with hr | hr
      · omega
      · omega)]

/-- C10 witness: the theorem applied to 25:00, whose extraction has hour
25 and is rejected to the default. -/
theorem c10_witness :
    (∀ f ∈ granicusTimeFormats, strptime f (cleanTimeStr "25:00") = none) ∧
    aggMatch (cleanTimeStr "25:00").data = some ⟨['2', '5'], some 0, none⟩ ∧
    aggAdjusted ⟨['2', '5'], some 0, none⟩ = (25, 0) ∧
    parseTimePart "25:00" = "00:00:00" :=
  ⟨by decide, rfl, rfl,
   c10_aggressive_time_fallback.2 "25:00" ⟨['2', '5'], some 0, none⟩ 25 0
     (by decide) rfl rfl (by left; omega)⟩

/-! ### C9 -/

/-- C9 counterexample: a record whose time was explicitly parsed as
12:00 AM is emitted with the date kept but the time reported absent — the
code cannot distinguish an explicitly parsed midnight from the defaulted
one, contradicting the claim. -/
theorem c9_explicit_midnight_reported_absent :
    (createAssetFromHtmlLi cfgHtml liExplicitMidnight).map Asset.meeting_time =
        some none ∧
    (createAssetFromHtmlLi cfgHtml liExplicitMidnight).map Asset.meeting_date =
        some (some ⟨2025, 4, 23⟩) :=
  ⟨rfl, rfl⟩

/-- C9 amended: on the Granicus HTML path an emitted record never carries
an explicit midnight time — any midnight, defaulted or explicitly parsed,
is reported as absent, so the two are indistinguishable — and on the
legacy path an unparseable time string (no explicit format matches and
the aggressive regex finds no digits) yields the default midnight string
00:00:00 rather than an absent time, while the date is unaffected. -/
theorem c9_midnight_collapse_amended :
    (∀ (cfg : GranicusConf) (cells : List LiCell) (a : Asset),
      createAssetFromHtmlLi cfg cells = some a →
      a.meeting_time ≠ some midnight) ∧
    (∀ s : String,
      (∀ f ∈ granicusTimeFormats, strptime f (cleanTimeStr s) = none) →
      aggMatch (cleanTimeStr s).data = none →
      parseTimePart s = "00:00:00") := by
  constructor
  · intro cfg cells a hcreate
    simp only [createAssetFromHtmlLi] at hcreate
    repeat' split at hcreate
    all_goals
      first
      | exact Option.noConfusion hcreate
      | (rw [Option.some_inj] at hcreate
         subst hcreate
         intro hmid2
         simp_all)
  · intro s hfmts hagg
    unfold parseTimePart
    by_cases hempty : s = ""
    · rw [if_pos hempty]
    · rw [if_neg hempty]
      have hex : (granicusTimeFormats.findSome? fun f =>
          (strptime f (cleanTimeStr s)).map DateTime.time) = none := by
        rw [List.findSome?_eq_none_iff]
        intro f hf
        rw [hfmts f hf]
        rfl
      simp only [hex]
      by_cases hcl : (cleanTimeStr s : String) = ""
      · rw [if_neg (by simp [hcl])]
      · rw [if_pos (by simp [hcl]), hagg]

/-- C9 witness: the amended theorem applied at the explicit-midnight list
item. -/
theorem c9_witness :
    createAssetFromHtmlLi cfgHtml liExplicitMidnight =
      some (Option.get (createAssetFromHtmlLi cfgHtml liExplicitMidnight)
        (by decide)) ∧
    (Option.get (createAssetFromHtmlLi cfgHtml liExplicitMidnight)
        (by decide)).meeting_time ≠ some midnight :=
  ⟨(Option.some_get _).symm,
   c9_midnight_collapse_amended.1 cfgHtml liExplicitMidnight _
     (Option.some_get _).symm⟩

end CivicScraper
